import Mathlib

/-!
A shallow embedding, in Lean 4, of the `latex-rs` crate: a typed AST for
LaTeX documents together with the visitor-based printer that serializes the
AST to LaTeX source text.  Each definition mirrors one Rust item of the
repository (file and item named in its doc comment); theorems at the end of
the file settle the specified behavioural properties of those items.
-/

namespace Latex

/-! ## Table model (`src/table.rs`) -/

/-- The `ColumnAlignment` from `src/table.rs`: column alignment of the table spec.
The `#[default]` variant is `Left`. -/
inductive ColumnAlignment where
  | Left
  | Right
  | Center
deriving Repr, DecidableEq

/-- The `impl Display for ColumnAlignment` from `src/table.rs`. -/
def ColumnAlignment.display : ColumnAlignment → String
  | .Left => "l"
  | .Right => "r"
  | .Center => "c"

/-- The `TableColumnSettings` from `src/table.rs`: the typed table-spec entry for
one column.  `#[derive(Default)]` gives `alignment = Left`. -/
structure TableColumnSettings where
  alignment : ColumnAlignment
deriving Repr, DecidableEq

/-- The `TableColumnSettings::default()`: default alignment (`Left`). -/
def TableColumnSettings.default : TableColumnSettings :=
  { alignment := ColumnAlignment.Left }

/-- The `TableColumnSettingsWrapper` from `src/table.rs`: either a typed list of
per-column settings or a raw LaTeX table-spec string. -/
inductive TableColumnSettingsWrapper where
  | Typed (settings : List TableColumnSettings)
  | Raw (settings : String)
deriving Repr, DecidableEq

/-- The `impl Default for TableColumnSettingsWrapper`: `Typed(Vec::new())`. -/
def TableColumnSettingsWrapper.default : TableColumnSettingsWrapper :=
  TableColumnSettingsWrapper.Typed []

/-- The `TableRow` from `src/table.rs`: the cells, the recorded column count
(`columns : Option<usize>`), and the flag suppressing the row terminator.
`#[derive(Default)]` gives `content = []`, `columns = None`,
`skip_explicit_new_row = false`. -/
structure TableRow where
  content : List String
  columns : Option Nat
  skip_explicit_new_row : Bool
deriving Repr, DecidableEq

/-- The `TableRow::default()`. -/
def TableRow.default : TableRow :=
  { content := [], columns := none, skip_explicit_new_row := false }

/-- The `Table` from `src/table.rs`. -/
structure Table where
  content : List TableRow
  column_settings : TableColumnSettingsWrapper
  custom_default_column_settings : Option TableColumnSettings
deriving Repr, DecidableEq

/-- The `Table::new()` / `Table::default()`. -/
def Table.new : Table :=
  { content := [], column_settings := TableColumnSettingsWrapper.default,
    custom_default_column_settings := none }

/-- The generic `impl IntoTableRow for I where I: IntoIterator<Item = T>,
T: Display` from `src/table.rs`, specialised to a list of already-stringified
cells: starts from the default row with `columns = Some(0)` and pushes each
cell, bumping the recorded column count. -/
def into_table_row (items : List String) : TableRow :=
  items.foldl
    (fun row e =>
      { row with
        content := row.content ++ [e],
        columns := some (row.columns.getD 0 + 1) })
    { TableRow.default with columns := some 0 }

/-- The `impl IntoTableRow for TableHLine` from `src/table.rs`: a default row
whose content is the literal `\hline` marker and whose
`skip_explicit_new_row` flag is set (`columns` stays `None`). -/
def tableHLine_into_table_row : TableRow :=
  { TableRow.default with
    content := ["\\hline"],
    skip_explicit_new_row := true }

/-- The `Table::push_row` from `src/table.rs`. -/
def Table.push_row (t : Table) (row : TableRow) : Table :=
  { t with content := t.content ++ [row] }

/-- The `Table::number_columns` from `src/table.rs`: a fold over the rows keeping
the largest recorded column count, with `row.columns.unwrap_or(0)`. -/
def Table.number_columns (t : Table) : Nat :=
  t.content.foldl
    (fun acc row =>
      let columns := row.columns.getD 0
      if columns > acc then columns else acc)
    0

/-- The two panics that `Table::replace_column_settings` can hit:
the explicit `panic!("Column {} does not exist", column)` bounds check, and
the implicit `Vec` index-out-of-bounds panic of
`current_settings[column] = column_settings`. -/
inductive TablePanic where
  | columnDoesNotExist (column : Nat)
  | indexOutOfBounds
deriving Repr, DecidableEq

/-- The `Table::replace_column_settings` from `src/table.rs`, with panics made
explicit as `Except.error`.  The source first panics when
`column >= self.number_columns()`; otherwise it clones the typed settings (or,
for raw settings, builds `vec![TableColumnSettings::default(); column]`, a
vector of length `column`), then assigns `current_settings[column]`, which
panics when `column` is not below the vector's length. -/
def Table.replace_column_settings (t : Table) (column : Nat)
    (column_settings : TableColumnSettings) : Except TablePanic Table :=
  if column ≥ t.number_columns then
    Except.error (TablePanic.columnDoesNotExist column)
  else
    let current_settings :=
      match t.column_settings with
      | TableColumnSettingsWrapper.Typed settings => settings
      | TableColumnSettingsWrapper.Raw _ =>
          List.replicate column TableColumnSettings.default
    if column < current_settings.length then
      Except.ok
        { t with
          column_settings :=
            TableColumnSettingsWrapper.Typed
              (current_settings.set column column_settings) }
    else
      Except.error TablePanic.indexOutOfBounds

/-! ## Paragraph model (`src/paragraph.rs`) -/

/-- The `ParagraphElement` from `src/paragraph.rs`: a plain string, bold or
italic wrapping of another inline element (the `Box` becomes direct
recursion), or an inline mathematical expression (named `InlineCode` in
`src/paragraph.rs`; `src/visitor/printer.rs` refers to the same variant as
`InlineMath` and prints it identically). -/
inductive ParagraphElement where
  | Plain (s : String)
  | Bold (e : ParagraphElement)
  | Italic (e : ParagraphElement)
  | InlineCode (s : String)
deriving Repr, DecidableEq

/-- The `Paragraph` from `src/paragraph.rs`. -/
structure Paragraph where
  elements : List ParagraphElement
deriving Repr, DecidableEq

/-- The `Paragraph::new()` / `Paragraph::default()`. -/
def Paragraph.new : Paragraph := { elements := [] }

/-- The `Paragraph::push` from `src/paragraph.rs`. -/
def Paragraph.push (p : Paragraph) (e : ParagraphElement) : Paragraph :=
  { p with elements := p.elements ++ [e] }

/-- The `Paragraph::push_text` from `src/paragraph.rs`. -/
def Paragraph.push_text (p : Paragraph) (text : String) : Paragraph :=
  p.push (ParagraphElement.Plain text)

/-- The `impl From<&str> for Paragraph` from `src/paragraph.rs`: a new paragraph
with the string pushed as plain text. -/
def paragraphOfStr (other : String) : Paragraph :=
  Paragraph.new.push_text other

/-! ## Equation model (`src/equations.rs`) -/

/-- The `Equation` from `src/equations.rs`: text, optional label and the
`not_numbered` flag (`src/visitor/printer.rs` reads these through the
`get_text`/`get_label`/`is_numbered` accessors, where
`is_numbered = !not_numbered`). -/
structure Equation where
  text : String
  label : Option String
  not_numbered : Bool
deriving Repr, DecidableEq

/-- The `Equation::new` from `src/equations.rs`. -/
def Equation.new (src : String) : Equation :=
  { text := src, label := none, not_numbered := false }

/-- The `Align` (named `Equations` in `src/equations.rs`, re-exported as `Align`
by `src/lib.rs`): an ordered list of equations for an `align` environment. -/
structure Align where
  items : List Equation
deriving Repr, DecidableEq

/-! ## List model (`src/lists.rs`) -/

/-- The `ListKind` from `src/lists.rs`. -/
inductive ListKind where
  | Enumerate
  | Itemize
deriving Repr, DecidableEq

/-- The `ListKind::environment_name` from `src/lists.rs`. -/
def ListKind.environment_name : ListKind → String
  | .Enumerate => "enumerate"
  | .Itemize => "itemize"

/-- The `List` struct of `src/lists.rs` (named `ListEnv` here because `List`
is taken in Lean): its kind, the optional bracketed rendering argument read
by `src/visitor/printer.rs` (`list.argument`), and its `Item(String)`
entries. -/
structure ListEnv where
  kind : ListKind
  argument : Option String
  items : List String
deriving Repr, DecidableEq

/-! ## Preamble model -/

/-- Modelled from the spec: `PreambleElement` — a package import with an
optional argument, or a raw user-defined preamble line.  The declaration is
absent from the snapshot's `src/document.rs` (an older revision); its shape
is fixed by the spec ("package import with optional argument, a
macro/command definition, or a raw user-defined line") and by the exhaustive
match in `Printer::visit_preamble` (`src/visitor/printer.rs`). -/
inductive PreambleElement where
  | UsePackage (package : String) (argument : Option String)
  | UserDefined (s : String)
deriving Repr, DecidableEq

/-- The `Preamble`: optional author, optional title, and the ordered preamble
elements iterated by `Printer::visit_preamble` (the snapshot's
`src/document.rs` holds an older `Preamble` whose `uses : Vec<String>`
corresponds to the argument-less `UsePackage` entries; the element list is
modelled from the spec and the printer's usage). -/
structure Preamble where
  author : Option String
  title : Option String
  contents : List PreambleElement
deriving Repr, DecidableEq

/-- The `Preamble::default()`. -/
def Preamble.default : Preamble :=
  { author := none, title := none, contents := [] }

/-- The `Preamble::is_empty`, as used by `Printer::visit_preamble`: no
imports/definitions recorded. -/
def Preamble.is_empty (p : Preamble) : Bool :=
  p.contents.isEmpty

/-! ## Document model (`src/document.rs`) -/

/-- The `DocumentClass`.  The snapshot's `src/document.rs` (an older revision)
has `Article | Book | Report`; the `Part` and `Other(String)` variants are
modelled from the spec ("Article | Book | Report | Part | Other(string)")
and are required by the match in `Printer::visit_document`
(`src/visitor/printer.rs`) and by `examples/template.rs`. -/
inductive DocumentClass where
  | Article
  | Book
  | Report
  | Part
  | Other (s : String)
deriving Repr, DecidableEq

/-- The `impl Display for DocumentClass`: the class name written into
`\documentclass{...}` (`article`/`book`/`report` per `src/document.rs`;
`Part`/`Other` modelled from the spec). -/
def DocumentClass.display : DocumentClass → String
  | .Article => "article"
  | .Book => "book"
  | .Report => "report"
  | .Part => "part"
  | .Other s => s

/-- The `Element` from `src/document.rs`: the closed set of document nodes.
`Element::Section`'s payload (the `Section` struct of `src/section.rs`:
a name and child elements) is inlined as two constructor fields so that the
type is a single nested inductive.  `Element::Input` is absent from the
snapshot's older `src/document.rs` but required by `Printer::visit_element`
(`src/visitor/printer.rs`); the hidden `_Other` placeholder variant (never
constructed; `unreachable!()` in the printer) is not modelled. -/
inductive Element where
  | Para (p : Paragraph)
  | Section (name : String) (elements : List Element)
  | TableOfContents
  | TitlePage
  | ClearPage
  | Align (a : Align)
  | Environment (name : String) (lines : List String)
  | UserDefined (s : String)
  | List (l : ListEnv)
  | Input (path : String)
deriving Repr

/-- The `impl From<&str> for Element` from `src/document.rs` (lines 123-128):
"Create an arbitrary unescaped element from a string" —
`Element::UserDefined(other.to_string())`. -/
def elementOfStr (other : String) : Element :=
  Element.UserDefined other

/-- The `Document` from `src/document.rs`. -/
structure Document where
  class' : DocumentClass
  preamble : Preamble
  elements : List Element
deriving Repr

/-- The `Document::new` from `src/document.rs`. -/
def Document.new (document_class : DocumentClass) : Document :=
  { class' := document_class, preamble := Preamble.default, elements := [] }

/-- The `Document::push` from `src/document.rs` (the element already converted
via `Into<Element>`). -/
def Document.push (d : Document) (element : Element) : Document :=
  { d with elements := d.elements ++ [element] }

/-- Modelled from the spec: `Document::push_doc` (the merge operation the
spec calls `push_all`), which "copies every element of the source document
into the target, in order".  The method is absent from the snapshot's older
`src/document.rs`; `examples/template.rs` calls it as
`template2.push_doc(&part)`.  Modelled as the spec says: one `push` per
source element, in order. -/
def Document.push_doc (d : Document) (doc : Document) : Document :=
  doc.elements.foldl Document.push d

/-! ## The printer (`src/visitor/printer.rs`)

`Printer` writes to an in-memory byte buffer (`Vec<u8>`), whose writes never
fail, so each `visit_*` method is modelled as a pure function returning the
text it appends to the buffer.  Literal braces of the LaTeX output are
written `\x7b`/`\x7d`. -/

/-- The `Printer::visit_paragraph_element`: plain text verbatim, inline math in
`$...$`, bold/italic as `\textbf{...}`/`\textit{...}` around the recursively
printed child. -/
def printParagraphElement : ParagraphElement → String
  | .Plain s => s
  | .InlineCode s => "$" ++ s ++ "$"
  | .Bold e => "\\textbf\x7b" ++ printParagraphElement e ++ "\x7d"
  | .Italic e => "\\textit\x7b" ++ printParagraphElement e ++ "\x7d"

/-- The `Printer::visit_paragraph`: each inline element in order with no
separator, then one trailing newline. -/
def printParagraph (para : Paragraph) : String :=
  String.join (para.elements.map printParagraphElement) ++ "\n"

/-- The `Printer::visit_equation`: the equation text, then `" \label{...}"` when
a label is set, then `" \nonumber"` when the equation is not numbered
(`!equation.is_numbered()`), then the `" \\"` terminator and a newline. -/
def printEquation (equation : Equation) : String :=
  equation.text
    ++ (match equation.label with
        | some label => " \\label\x7b" ++ label ++ "\x7d"
        | none => "")
    ++ (if equation.not_numbered then " \\nonumber" else "")
    ++ " \\\\\n"

/-- The loop body of `Printer::visit_align`: each equation printed in
sequence order. -/
def printAlignBody : List Equation → String
  | [] => ""
  | eq :: rest => printEquation eq ++ printAlignBody rest

/-- The `Printer::visit_align`: the `\begin{align}` line, each equation, the
`\end{align}` line. -/
def printAlign (align : Align) : String :=
  "\\begin\x7balign\x7d\n" ++ printAlignBody align.items ++ "\\end\x7balign\x7d\n"

/-- The `Printer::visit_list_item`: one `\item ` line. -/
def printListItem (item : String) : String :=
  "\\item " ++ item ++ "\n"

/-- The `Printer::visit_list`: the begin line of the kind-specific environment
(with the bracketed argument when one is set), the items, the end line. -/
def printList (list : ListEnv) : String :=
  let env := list.kind.environment_name
  (match list.argument with
   | some argument => "\\begin\x7b" ++ env ++ "\x7d[" ++ argument ++ "]\n"
   | none => "\\begin\x7b" ++ env ++ "\x7d\n")
    ++ String.join (list.items.map printListItem)
    ++ "\\end\x7b" ++ env ++ "\x7d\n"

/-- One arm of the match in `Printer::visit_preamble`: a `\usepackage` line
(with the optional bracketed argument) or a user-defined line. -/
def printPreambleElement : PreambleElement → String
  | .UsePackage pkg none => "\\usepackage\x7b" ++ pkg ++ "\x7d\n"
  | .UsePackage pkg (some arg) =>
      "\\usepackage[" ++ arg ++ "]\x7b" ++ pkg ++ "\x7d\n"
  | .UserDefined s => s ++ "\n"

/-- The item loop of `Printer::visit_preamble`. -/
def printPreambleItems : List PreambleElement → String
  | [] => ""
  | item :: rest => printPreambleElement item ++ printPreambleItems rest

/-- The `Printer::visit_preamble`: each import/definition line in order; one
blank line when `!preamble.is_empty() && (title.is_some() ||
author.is_some())`; then the `\title` line when set; then the `\author` line
when set. -/
def printPreamble (preamble : Preamble) : String :=
  printPreambleItems preamble.contents
    ++ (if !preamble.is_empty && (preamble.title.isSome || preamble.author.isSome)
        then "\n" else "")
    ++ (match preamble.title with
        | some title => "\\title\x7b" ++ title ++ "\x7d\n"
        | none => "")
    ++ (match preamble.author with
        | some author => "\\author\x7b" ++ author ++ "\x7d\n"
        | none => "")

mutual

/-- The `Printer::visit_element`: dispatch on the element kind (the fixed marker
lines for `TableOfContents`/`TitlePage`/`ClearPage`, the raw user-defined
line, the verbatim environment lines, the `\input` line, and recursion into
the structured kinds). -/
def printElement : Element → String
  | .Para p => printParagraph p
  | .Section name elements => printSection name elements
  | .TableOfContents => "\\tableofcontents\n"
  | .TitlePage => "\\maketitle\n"
  | .ClearPage => "\\clearpage\n"
  | .UserDefined s => s ++ "\n"
  | .Align a => printAlign a
  | .Environment name lines =>
      "\\begin\x7b" ++ name ++ "\x7d\n"
        ++ String.join (lines.map (fun line => line ++ "\n"))
        ++ "\\end\x7b" ++ name ++ "\x7d\n"
  | .List l => printList l
  | .Input s => "\\input\x7b" ++ s ++ "\x7d\n"

/-- The `Printer::visit_section`: the `\section{...}` line; a blank line when
the section is non-empty; then each child element followed by one blank
line. -/
def printSection (name : String) (elements : List Element) : String :=
  "\\section\x7b" ++ name ++ "\x7d\n"
    ++ (if elements.isEmpty then "" else "\n")
    ++ printSectionBody elements

/-- The element loop of `Printer::visit_section`: each child element's
rendering followed by one blank line (a lone newline after the element's own
trailing newline). -/
def printSectionBody : List Element → String
  | [] => ""
  | e :: rest => printElement e ++ "\n" ++ printSectionBody rest

/-- The element loop of `Printer::visit_document`: each top-level element in
order, with no separator. -/
def printElements : List Element → String
  | [] => ""
  | e :: rest => printElement e ++ printElements rest

end

/-- The `Printer::visit_document`: for a `Part`-class document, only the child
elements; otherwise the `\documentclass` line, the preamble, the
`\begin{document}` line, the elements, and the `\end{document}` line. -/
def printDocument (doc : Document) : String :=
  match doc.class' with
  | DocumentClass.Part => printElements doc.elements
  | _ =>
      "\\documentclass\x7b" ++ doc.class'.display ++ "\x7d\n"
        ++ printPreamble doc.preamble
        ++ "\\begin\x7bdocument\x7d\n"
        ++ printElements doc.elements
        ++ "\\end\x7bdocument\x7d\n"

/-- The `print` from `src/visitor/printer.rs`: render a document to a string
(the buffer is in-memory, so the only `Err` paths — sink write failure and
UTF-8 finalisation — cannot occur, and the result is the rendered text). -/
def print (doc : Document) : String :=
  printDocument doc

/-! ## Helper lemmas -/

/-- The fold step of `Table::number_columns` keeps the running maximum. -/
theorem if_gt_eq_max (a b : Nat) : (if b > a then b else a) = max a b := by
  by_cases h : b > a
  · simp [h, Nat.max_eq_right (Nat.le_of_lt h)]
  · simp [h, Nat.max_eq_left (Nat.not_lt.mp h)]

/-- The `Table::number_columns` computes the maximum recorded column count over
the rows (`row.columns.unwrap_or(0)`), with `0` for an empty table. -/
theorem number_columns_eq_foldr (t : Table) :
    t.number_columns = (t.content.map (fun r => r.columns.getD 0)).foldr max 0 := by
  have hstep :
      (fun (acc : Nat) (row : TableRow) =>
          let columns := row.columns.getD 0
          if columns > acc then columns else acc)
        = fun acc row => max acc (row.columns.getD 0) := by
    funext acc row
    exact if_gt_eq_max acc (row.columns.getD 0)
  unfold Table.number_columns
  rw [hstep]
  suffices h : ∀ (l : List TableRow) (acc : Nat),
      l.foldl (fun acc row => max acc (row.columns.getD 0)) acc
        = max acc ((l.map (fun r => r.columns.getD 0)).foldr max 0) by
    simpa using h t.content 0
  intro l
  induction l with
  | nil => intro acc; simp
  | cons r rest ih =>
      intro acc
      simp only [List.foldl_cons, List.map_cons, List.foldr_cons, ih,
        Nat.max_assoc]

/-- The `String.join` unfolds one element at a time. -/
theorem join_cons (s : String) (l : List String) :
    String.join (s :: l) = s ++ String.join l := by
  apply String.ext
  simp [String.join_eq, String.data_append]

/-- The section-element loop emits each child's rendering followed by one
blank line. -/
theorem printSectionBody_eq_join (l : List Element) :
    printSectionBody l = String.join (l.map fun e => printElement e ++ "\n") := by
  induction l with
  | nil => simp [printSectionBody, String.join]
  | cons e rest ih => rw [printSectionBody, List.map_cons, join_cons, ih]

/-- The align loop emits each equation's rendering in order. -/
theorem printAlignBody_eq_join (l : List Equation) :
    printAlignBody l = String.join (l.map printEquation) := by
  induction l with
  | nil => rfl
  | cons eq rest ih => rw [printAlignBody, List.map_cons, join_cons, ih]

/-- The preamble-item loop emits each import/definition line in order. -/
theorem printPreambleItems_eq_join (l : List PreambleElement) :
    printPreambleItems l = String.join (l.map printPreambleElement) := by
  induction l with
  | nil => rfl
  | cons item rest ih => rw [printPreambleItems, List.map_cons, join_cons, ih]

/-- The `Document::push` folded over a list appends the list to the elements and
touches nothing else. -/
theorem foldl_push_eq (l : List Element) (d : Document) :
    l.foldl Document.push d = { d with elements := d.elements ++ l } := by
  induction l generalizing d with
  | nil => simp
  | cons e rest ih =>
      rw [List.foldl_cons, ih]
      simp [Document.push]

/-! ## The claims -/

/-- C7: for every `Table`, `number_columns()` returns the maximum recorded
column count over all rows (`0` for a table with no rows); in particular a
table whose first row has 2 cells and whose second row has 3 cells reports
`number_columns() == 3`. -/
theorem number_columns_spec :
    (∀ t : Table,
        t.number_columns = (t.content.map (fun r => r.columns.getD 0)).foldr max 0)
    ∧ ((Table.new.push_row (into_table_row ["a", "b"])).push_row
        (into_table_row ["c", "d", "e"])).number_columns = 3 :=
  ⟨number_columns_eq_foldr, rfl⟩

/-- C10: `TableHLine` converts to a row with exactly one content cell (the
literal `\hline` marker) and the row-terminator-suppression flag set, but
with no recorded column count, so every table all of whose rows are such
pseudo-rows has `number_columns() == 0`. -/
theorem tableHLine_row_spec (t : Table)
    (h : ∀ r ∈ t.content, r = tableHLine_into_table_row) :
    tableHLine_into_table_row.content = ["\\hline"]
    ∧ tableHLine_into_table_row.skip_explicit_new_row = true
    ∧ tableHLine_into_table_row.columns = none
    ∧ t.number_columns = 0 := by
  refine ⟨rfl, rfl, rfl, ?_⟩
  rw [number_columns_eq_foldr]
  have haux : ∀ l : List TableRow,
      (∀ r ∈ l, r = tableHLine_into_table_row) →
        (l.map (fun r => r.columns.getD 0)).foldr max 0 = 0 := by
    intro l
    induction l with
    | nil => intro _; rfl
    | cons r rest ih =>
        intro hl
        have hr : r.columns = none := by
          rw [hl r (List.mem_cons_self r rest)]
          rfl
        simp only [List.map_cons, List.foldr_cons, hr, Option.getD_none]
        rw [ih fun x hx => hl x (List.mem_cons_of_mem r hx)]
        simp
  exact haux t.content h

/-- C10 witness: a concrete table of two horizontal-rule pseudo-rows has one
`\hline` cell per row yet zero columns. -/
theorem tableHLine_row_spec_witness :
    (Table.new.push_row tableHLine_into_table_row |>.push_row
        tableHLine_into_table_row).number_columns = 0 :=
  (tableHLine_row_spec
      (Table.new.push_row tableHLine_into_table_row |>.push_row
        tableHLine_into_table_row)
      (by decide)).2.2.2

/-- C8: `replace_column_settings(c, s)` hits its explicit bounds-check panic
(`panic!("Column {} does not exist", c)`) exactly when
`c >= number_columns()`; under the precondition `c < number_columns()` that
abort branch is never taken. -/
theorem replace_column_settings_bounds (t : Table) (column : Nat)
    (s : TableColumnSettings) :
    t.replace_column_settings column s
        = Except.error (TablePanic.columnDoesNotExist column)
      ↔ t.number_columns ≤ column := by
  unfold Table.replace_column_settings
  by_cases h : column ≥ t.number_columns
  · simp [h]
  · rw [if_neg h]
    constructor
    · intro hcontra
      split at hcontra
      · dsimp only at hcontra
        split at hcontra <;> simp_all
      · simp_all
    · intro hle
      exact absurd hle h

/-- The concrete table of the C1 failing input: one single-cell row and raw
column settings. -/
def rawSettingsTable : Table :=
  { content := [into_table_row ["a"]],
    column_settings := TableColumnSettingsWrapper.Raw "l",
    custom_default_column_settings := none }

/-- C1 (the code bug): on a table with `Raw` column settings and one column,
`replace_column_settings(0, default)` passes the bounds check
(`number_columns() == 1 > 0`) but then panics with an index-out-of-bounds,
because the source materialises `vec![TableColumnSettings::default(); column]`
— a vector of length `column`, not of length `number_columns()` — and then
assigns `current_settings[column]`.  Its own doc comment promises instead
that the call "will replace the column settings for the specified column and
set all other columns to the default typed column settings". -/
theorem replace_column_settings_raw_panics :
    rawSettingsTable.number_columns = 1
    ∧ rawSettingsTable.replace_column_settings 0 TableColumnSettings.default
        = Except.error TablePanic.indexOutOfBounds :=
  ⟨rfl, rfl⟩

/-- C2 counterexample: in `src/document.rs` (lines 123-128) the conversion
from a bare string to an `Element` yields `Element::UserDefined(s)` — an
"arbitrary unescaped element", not a single-paragraph single-plain-text-run
node: at the concrete input `"hello"` the result differs from
`Element::Para` of the one-plain-run paragraph. -/
theorem element_from_str_not_para :
    elementOfStr "hello" = Element.UserDefined "hello"
    ∧ elementOfStr "hello" ≠ Element.Para (paragraphOfStr "hello") := by
  refine ⟨rfl, ?_⟩
  simp [elementOfStr]

/-- C2 (amended): converting a bare string into an `Element` yields a
`UserDefined` node holding the string verbatim, while converting a bare
string into a `Paragraph` (`src/paragraph.rs` lines 42-48) yields a
paragraph containing exactly one plain-text run with that string. -/
theorem string_conversion_spec (s : String) :
    elementOfStr s = Element.UserDefined s
    ∧ paragraphOfStr s = { elements := [ParagraphElement.Plain s] } :=
  ⟨rfl, rfl⟩

/-- C3: rendering a `Part`-class document emits only the document's child
elements in order — no `\documentclass` line, no preamble output, no
`\begin{document}`/`\end{document}` markers. -/
theorem visit_document_part (d : Document)
    (h : d.class' = DocumentClass.Part) :
    printDocument d = printElements d.elements := by
  unfold printDocument
  rw [h]

/-- C3 witness: a concrete `Part`-class document with one raw element
renders as just that element. -/
theorem visit_document_part_witness :
    printDocument
        ((Document.new DocumentClass.Part).push (Element.UserDefined "Some text"))
      = "Some text\n" := by
  rw [visit_document_part
      ((Document.new DocumentClass.Part).push (Element.UserDefined "Some text"))
      rfl]
  simp [Document.new, Document.push, Preamble.default, printElements, printElement]

/-- C4: merging document `b` into document `a` with `push_doc` leaves `a`'s
element sequence equal to `a`'s original elements followed by `b`'s elements
in order, and leaves `a`'s preamble and class unchanged (so the result is
independent of `b`'s class and preamble). -/
theorem push_doc_spec (a b : Document) :
    (a.push_doc b).elements = a.elements ++ b.elements
    ∧ (a.push_doc b).preamble = a.preamble
    ∧ (a.push_doc b).class' = a.class' := by
  unfold Document.push_doc
  rw [foldl_push_eq]
  exact ⟨rfl, rfl, rfl⟩

/-- C5: a section with zero children renders only its heading line; a
section with children renders the heading line, one blank line, then each
child's rendering followed by exactly one blank line each — including after
the last child. -/
theorem visit_section_spec (name : String) (elements : List Element) :
    printSection name [] = "\\section\x7b" ++ name ++ "\x7d\n"
    ∧ printSection name elements
        = "\\section\x7b" ++ name ++ "\x7d\n"
          ++ (if elements.isEmpty then "" else "\n")
          ++ String.join (elements.map fun e => printElement e ++ "\n") := by
  constructor
  · simp [printSection, printSectionBody]
  · rw [printSection, printSectionBody_eq_join]

/-- C6: the preamble renders each import/definition line in declaration
order, then exactly one blank separator line if and only if there is at
least one import/definition and at least one of title or author is set, then
the title line if set, then the author line if set; in particular a preamble
with only a title renders exactly one title line and nothing else. -/
theorem visit_preamble_spec (p : Preamble) :
    printPreamble p
        = String.join (p.contents.map printPreambleElement)
          ++ (if p.contents ≠ [] ∧ (p.title.isSome ∨ p.author.isSome)
              then "\n" else "")
          ++ (Option.elim p.title "" fun title => "\\title\x7b" ++ title ++ "\x7d\n")
          ++ (Option.elim p.author "" fun author => "\\author\x7b" ++ author ++ "\x7d\n")
    ∧ (∀ title, p.contents = [] → p.author = none → p.title = some title →
        printPreamble p = "\\title\x7b" ++ title ++ "\x7d\n") := by
  constructor
  · obtain ⟨author, title, contents⟩ := p
    cases contents <;> cases title <;> cases author <;>
      simp [printPreamble, Preamble.is_empty, printPreambleItems_eq_join,
        Option.elim]
  · intro title h1 h2 h3
    simp [printPreamble, Preamble.is_empty, h1, h2, h3, printPreambleItems]

/-- C6 witness: a concrete preamble with only a title renders exactly the
title line. -/
theorem visit_preamble_witness :
    printPreamble
        { author := none, title := some "Sample Document", contents := [] }
      = "\\title\x7bSample Document\x7d\n" :=
  (visit_preamble_spec
      { author := none, title := some "Sample Document", contents := [] }).2
    "Sample Document" rfl rfl rfl

/-- C9: an equation renders, on one line and in this fixed order, its text,
then a label reference iff a label is set, then the `\nonumber` marker iff
the not-numbered flag is set, then the ` \\` row terminator; an `align`
group renders the group-begin marker, each equation in sequence order, then
the group-end marker. -/
theorem visit_equation_align_spec (txt lbl : String) (label : Option String)
    (nn : Bool) (a : Align) :
    printEquation { text := txt, label := some lbl, not_numbered := true }
        = txt ++ (" \\label\x7b" ++ lbl ++ "\x7d") ++ " \\nonumber" ++ " \\\\\n"
    ∧ printEquation { text := txt, label := label, not_numbered := nn }
        = txt ++ (Option.elim label "" fun l => " \\label\x7b" ++ l ++ "\x7d")
          ++ (if nn then " \\nonumber" else "") ++ " \\\\\n"
    ∧ printAlign a
        = "\\begin\x7balign\x7d\n" ++ String.join (a.items.map printEquation)
          ++ "\\end\x7balign\x7d\n" := by
  refine ⟨rfl, ?_, ?_⟩
  · cases label <;> simp [printEquation, Option.elim]
  · rw [printAlign, printAlignBody_eq_join]

end Latex
